import Mathlib

/-!
Verification development for the ethicalfish-pi relay server (`src/main.rs`).

The program is a small axum web server with a `/status` liveness endpoint and
a `/ws` websocket endpoint.  The websocket handler (`handle_socket`,
lines 104-133) reads text frames, answers `"ping"` with `"pong"`, and for
frames starting with `"data:image"` extracts a base64 payload, calls the
Roboflow HTTP inference endpoint (`process_image`, lines 57-102) and sends the
JSON-serialized detection list back.

This file is a shallow embedding of that code:
  * text is modelled as `String`, with splitting and prefix tests carried out
    on the underlying character lists (matching Rust `str::split` /
    `str::starts_with` semantics on comma/ASCII patterns);
  * the process environment is a function `String → Option String`; a Rust
    `unwrap` panic is an `Except.error`;
  * the network is an oracle mapping the built request to either a transport
    error or a response; a response body is exposed both as the result of
    JSON-parsing its bytes (`Option Json`) and of reading them as text
    (`Option String`), mirroring `resp.json()` and `resp.text()`;
  * JSON numbers are carried as their decimal source text: the f32
    parse/print round-trip performed by serde is abstracted as the identity
    on that text (floating-point bit-level behaviour is out of scope);
  * websocket sends are modelled as always succeeding; the value recorded is
    the list of messages the session writes back for each inbound frame.
-/

/-! ## Frame codec: prefix test and comma split (handle_socket, lines 121-122) -/

/-- Character-list prefix test, the semantics of Rust `str::starts_with`
for an ASCII pattern such as `"data:image"`. -/
def charsStartWith : List Char → List Char → Bool
  | [], _ => true
  | _ :: _, [] => false
  | a :: as, b :: bs => if a = b then charsStartWith as bs else false

/-- Embedding of `text.starts_with(pat)` (line 121). -/
def strStartsWith (t pat : String) : Bool :=
  charsStartWith pat.toList t.toList

/-- Embedding of Rust `str::split(",")`: the list of comma-separated segments,
including empty ones; a text with no comma yields one segment. -/
def splitOnComma : List Char → List (List Char)
  | [] => [[]]
  | c :: rest =>
    if c = ',' then [] :: splitOnComma rest
    else
      match splitOnComma rest with
      | r :: rs => (c :: r) :: rs
      | [] => [[c]]

/-- Embedding of line 122: `text.split(",").nth(1).unwrap_or("")` -- the
second comma-separated segment of the text, or the empty string when the
split yields fewer than two segments. -/
def extractPayload (text : String) : String :=
  match splitOnComma text.toList with
  | _ :: second :: _ => ⟨second⟩
  | _ => ""

/-- Everything of the character list strictly after its first comma, or
`none` when it has no comma. -/
def dropThroughComma : List Char → Option (List Char)
  | [] => none
  | c :: rest => if c = ',' then some rest else dropThroughComma rest

/-- The longest comma-free leading segment of the character list. -/
def takeUptoComma : List Char → List Char
  | [] => []
  | c :: rest => if c = ',' then [] else c :: takeUptoComma rest

/-- Follows the spec's words for the image payload: everything after the
first comma of the text, commas included; the empty string when no comma is
present.  Stated for comparison with `extractPayload`, the function the code
actually computes. -/
def payloadSpecAfterFirstComma (text : String) : String :=
  match dropThroughComma text.toList with
  | none => ""
  | some rest => ⟨rest⟩

/-- The amended reading of the payload rule: the characters strictly between
the first comma and the second comma (or the end of the text); the empty
string when no comma is present. -/
def payloadBetweenCommas (text : String) : String :=
  match dropThroughComma text.toList with
  | none => ""
  | some rest => ⟨takeUptoComma rest⟩

/-! ## Provider response schema (lines 28-48) -/

/-- A JSON value, the possible shapes of a successfully JSON-parsed provider
response body.  Numbers carry their decimal source text. -/
inductive Json where
  | null
  | bool (b : Bool)
  | num (s : String)
  | str (s : String)
  | arr (elems : List Json)
  | obj (fields : List (String × Json))

/-- Field lookup in a JSON object, first occurrence of the key. -/
def jGet (fields : List (String × Json)) (k : String) : Option Json :=
  (fields.find? (fun kv => kv.1 = k)).map (fun kv => kv.2)

/-- Serde deserialization of an `f32` field: accepts exactly a JSON number
(carried as its source text). -/
def asNum : Json → Option String
  | .num s => some s
  | _ => none

/-- Serde deserialization of a `String` field: accepts exactly a JSON string. -/
def asStr : Json → Option String
  | .str s => some s
  | _ => none

/-- Serde deserialization of a `u32` field: a bare decimal integer within
the u32 range. -/
def parseU32 (s : String) : Option Nat :=
  if s.toList.isEmpty then none
  else if s.toList.all (fun c => c.isDigit) then
    let n := s.toList.foldl (fun a c => 10 * a + (c.toNat - 48)) 0
    if n < 4294967296 then some n else none
  else none

/-- Embedding of the `RoboflowPrediction` struct (lines 28-37).  All seven
fields are declared without serde defaults, so all are required by the
derived `Deserialize`.  The `f32` fields carry their decimal source text. -/
structure RoboflowPrediction where
  x : String
  y : String
  width : String
  height : String
  confidence : String
  «class» : String
  class_id : Nat
deriving DecidableEq

/-- Embedding of the `RoboflowResponse` struct (lines 39-42). -/
structure RoboflowResponse where
  predictions : List RoboflowPrediction
deriving DecidableEq

/-- Embedding of the `DetectionResult` struct (lines 44-48): serde field
order is declaration order, `class` then `confidence`. -/
structure DetectionResult where
  «class» : String
  confidence : String
deriving DecidableEq

/-- Derived `Deserialize` for `RoboflowPrediction`: every declared field must
be present with the declared type; unknown extra fields are ignored. -/
def parsePrediction (j : Json) : Option RoboflowPrediction :=
  match j with
  | .obj fs => do
    let xv ← jGet fs "x" >>= asNum
    let yv ← jGet fs "y" >>= asNum
    let wv ← jGet fs "width" >>= asNum
    let hv ← jGet fs "height" >>= asNum
    let cv ← jGet fs "confidence" >>= asNum
    let cl ← jGet fs "class" >>= asStr
    let ci ← jGet fs "class_id" >>= asNum
    let cid ← parseU32 ci
    pure ⟨xv, yv, wv, hv, cv, cl, cid⟩
  | _ => none

/-- Derived `Deserialize` for `RoboflowResponse`: requires a `predictions`
field holding an array whose elements all deserialize as predictions. -/
def parseRoboflowResponse (j : Json) : Option RoboflowResponse :=
  match j with
  | .obj fs =>
    match jGet fs "predictions" with
    | some (.arr l) => (l.mapM parsePrediction).map (fun ps => ⟨ps⟩)
    | _ => none
  | _ => none

/-! ## HTTP model (process_image, lines 57-102) -/

/-- The request-relevant configuration of a `reqwest::Client`. -/
structure ClientCfg where
  requestTimeoutMs : Option Nat
deriving DecidableEq

/-- Embedding of `Client::new()` (line 66): the default reqwest client
configuration, which sets no request timeout. -/
def clientNew : ClientCfg :=
  { requestTimeoutMs := none }

/-- The outbound HTTP POST request built by `process_image`. -/
structure HttpReq where
  url : String
  contentType : String
  body : String
deriving DecidableEq

/-- Outcome of `client.post(..).send().await` together with the two ways the
body is consumed: `err` is a transport error (the `Err` branch, line 97);
`ok` carries the status code, the body parsed as a JSON value when its bytes
are valid JSON (`resp.json()`), and the body read as text when that read
succeeds (`resp.text()`). -/
inductive HttpResult where
  | err (e : String)
  | ok (status : Nat) (jsonBody : Option Json) (textBody : Option String)

/-- The network: what the provider answers to a request issued by a client
with the given configuration. -/
def Net := ClientCfg → HttpReq → HttpResult

/-- `reqwest::StatusCode::is_success`: status in 200..=299. -/
def statusIsSuccess (n : Nat) : Bool :=
  decide (200 ≤ n) && decide (n ≤ 299)

/-- Embedding of lines 61-70: the request URL built from the three
configuration values, the form content type, and the body
`image=` followed verbatim by the base64 payload. -/
def mkReq (api_key model_id model_version base64_image : String) : HttpReq :=
  { url := "https://detect.roboflow.com/" ++ model_id ++ "/" ++ model_version
      ++ "?api_key=" ++ api_key
    contentType := "application/x-www-form-urlencoded"
    body := "image=" ++ base64_image }

/-- What one call of `process_image` produces after the request is sent: the
diagnostic lines printed to stderr and the detection list returned. -/
structure ProcResult where
  logs : List String
  results : List DetectionResult
deriving DecidableEq

/-- `resp.json::<RoboflowResponse>()`: the body bytes must parse as JSON and
the value must deserialize against the schema. -/
def decodeBody (jsonBody : Option Json) : Option RoboflowResponse :=
  jsonBody >>= parseRoboflowResponse

/-- Embedding of the `match response` block of `process_image`
(lines 74-101): a success status with a well-formed body maps each
prediction to a `DetectionResult` keeping only `class` and `confidence`;
every failure branch logs one line and yields the empty list. -/
def interpretResponse : HttpResult → ProcResult
  | .err e => ⟨["Failed to send request: " ++ e], []⟩
  | .ok status jsonBody textBody =>
    if statusIsSuccess status then
      match decodeBody jsonBody with
      | some rr =>
        ⟨[], rr.predictions.map (fun p => ⟨p.«class», p.confidence⟩)⟩
      | none => ⟨["Failed to parse Roboflow response."], []⟩
    else
      ⟨["Roboflow API error: " ++ textBody.getD "Unknown error"], []⟩

/-- The provider call failed: transport error, non-success status, or a body
that does not decode against the schema. -/
def callFails : HttpResult → Bool
  | .err _ => true
  | .ok status jsonBody _ =>
    !statusIsSuccess status || (decodeBody jsonBody).isNone

/-! ## Environment and process_image (lines 57-102) -/

/-- The process environment: variable name to value. -/
def Env := String → Option String

/-- An environment holding exactly the three Roboflow configuration
variables. -/
def mkEnv (k m v : String) : Env := fun n =>
  if n = "ROBOFLOW_API_KEY" then some k
  else if n = "ROBOFLOW_MODEL_ID" then some m
  else if n = "ROBOFLOW_MODEL_VERSION" then some v
  else none

/-- The panic raised by `std::env::var(name).unwrap()` when the variable is
absent (lines 58-60). -/
def envPanicMsg (name : String) : String :=
  "called unwrap on a missing environment variable: " ++ name

/-- Embedding of `process_image` (lines 57-102).  The three environment
variables are read and unwrapped at the start of every call; a missing one
is a panic (`Except.error`).  Otherwise the request is built and sent with
the default client configuration and the response interpreted. -/
def processImage (env : Env) (net : Net) (base64_image : String) :
    Except String ProcResult :=
  match env "ROBOFLOW_API_KEY" with
  | none => .error (envPanicMsg "ROBOFLOW_API_KEY")
  | some api_key =>
    match env "ROBOFLOW_MODEL_ID" with
    | none => .error (envPanicMsg "ROBOFLOW_MODEL_ID")
    | some model_id =>
      match env "ROBOFLOW_MODEL_VERSION" with
      | none => .error (envPanicMsg "ROBOFLOW_MODEL_VERSION")
      | some model_version =>
        .ok (interpretResponse
          (net clientNew (mkReq api_key model_id model_version base64_image)))

/-- Embedding of `main` (lines 139-149): it builds the router, binds the TCP
listener and serves.  It performs no environment reads, so whether startup
succeeds depends only on the bind/serve outcome, modelled by the `bindOk`
parameter, never on the environment. -/
def mainStartup (_env : Env) (bindOk : Bool) : Bool :=
  bindOk

/-! ## Serialization (serde_json::to_string of Vec of DetectionResult, line 125) -/

/-- Lowercase hexadecimal digit, as used by serde_json's control-character
escapes. -/
def hexLowerDigit (n : Nat) : Char :=
  if n < 10 then Char.ofNat (48 + n) else Char.ofNat (87 + n)

/-- serde_json escaping of one character inside a JSON string literal. -/
def escapeChar (c : Char) : String :=
  if c = '"' then "\\\""
  else if c = '\\' then "\\\\"
  else if c = '\x08' then "\\b"
  else if c = '\x09' then "\\t"
  else if c = '\x0a' then "\\n"
  else if c = '\x0c' then "\\f"
  else if c = '\x0d' then "\\r"
  else if c.toNat < 32 then
    "\\u00" ++ String.singleton (hexLowerDigit (c.toNat / 16))
      ++ String.singleton (hexLowerDigit (c.toNat % 16))
  else String.singleton c

/-- serde_json escaping of a string body. -/
def jsonEscape (s : String) : String :=
  String.join (s.toList.map escapeChar)

/-- A JSON string literal. -/
def renderJsonString (s : String) : String :=
  "\"" ++ jsonEscape s ++ "\""

/-- Derived `Serialize` output for one `DetectionResult`: an object with the
fields in declaration order, `class` then `confidence`; the confidence is a
JSON number (its decimal text). -/
def renderDetection (d : DetectionResult) : String :=
  "\x7b\"class\":" ++ renderJsonString d.«class»
    ++ ",\"confidence\":" ++ d.confidence ++ "\x7d"

/-- Embedding of `serde_json::to_string(&results)` (line 125) for the
`Vec<DetectionResult>` value: a JSON array of the detections in order. -/
def serializeResults (ds : List DetectionResult) : String :=
  "[" ++ String.intercalate "," (ds.map renderDetection) ++ "]"

/-! ## Connection session (handle_socket, lines 104-133) -/

/-- One received websocket message, as seen through `msg.to_text()`
(line 112): either it yields text (a text frame, or a binary frame whose
bytes are valid UTF-8) or it does not. -/
inductive WsMsg where
  | text (s : String)
  | undecodable
deriving DecidableEq

/-- One iteration of the `socket.recv()` loop: a message was received, or
the receive errored (line 106-110 `else return`). -/
inductive RecvEvent where
  | msg (m : WsMsg)
  | recvError

/-- Embedding of the body of the receive loop (lines 112-131): the list of
messages the session sends back for one inbound message.  A `"ping"` text
gets `"pong"`; a text starting with `"data:image"` gets the serialization of
the `process_image` result (a panic inside that call is propagated); any
other text, and any undecodable message, gets no reply. -/
def sessionStep (env : Env) (net : Net) : WsMsg → Except String (List String)
  | .undecodable => .ok []
  | .text t =>
    if t = "ping" then .ok ["pong"]
    else if strStartsWith t "data:image" then
      match processImage env net (extractPayload t) with
      | .error e => .error e
      | .ok pr => .ok [serializeResults pr.results]
    else .ok []

/-- Embedding of the whole `handle_socket` loop (lines 104-133) over a
sequence of receive events, collecting every message sent: the loop exits at
the end of the stream or on a receive error, and a panic in a step aborts
the session. -/
def session (env : Env) (net : Net) : List RecvEvent → Except String (List String)
  | [] => .ok []
  | .recvError :: _ => .ok []
  | .msg m :: rest =>
    match sessionStep env net m with
    | .error e => .error e
    | .ok out =>
      match session env net rest with
      | .error e => .error e
      | .ok outs => .ok (out ++ outs)

/-! ## Concrete provider bodies used as test inputs -/

/-- A provider body whose single prediction carries only `class` and
`confidence`, with the bounding-box fields and `class_id` absent. -/
def predsMissingBoxFields : Json :=
  Json.obj [("predictions", Json.arr
    [Json.obj [("class", Json.str "fish"), ("confidence", Json.num "1.0")]])]

/-- The spec's stub provider body: one prediction with every schema field
present, plus nothing extra missing. -/
def fullStubBody : Json :=
  Json.obj [("predictions", Json.arr
    [Json.obj
      [("x", Json.num "0"), ("y", Json.num "0"),
       ("width", Json.num "1"), ("height", Json.num "1"),
       ("confidence", Json.num "1.0"), ("class", Json.str "fish"),
       ("class_id", Json.num "0")]])]

/-! ## Helper lemmas -/

/-- Structure of the comma split: the first segment is the longest comma-free
leading segment, and the remaining segments are the split of what follows
the first comma. -/
theorem splitOnComma_eq_struct (l : List Char) :
    splitOnComma l
      = takeUptoComma l :: ((dropThroughComma l).elim [] splitOnComma) := by
  induction l with
  | nil => rfl
  | cons c rest ih =>
    by_cases hc : c = ','
    · subst hc
      simp [splitOnComma, takeUptoComma, dropThroughComma]
    · simp [splitOnComma, takeUptoComma, dropThroughComma, hc, ih]

/-- A comma-free character list has nothing after a first comma. -/
theorem dropThroughComma_eq_none (l : List Char) (h : ',' ∉ l) :
    dropThroughComma l = none := by
  induction l with
  | nil => rfl
  | cons c rest ih =>
    have hc : ¬ c = ',' := fun hc => h (hc ▸ List.mem_cons_self c rest)
    have hr : ',' ∉ rest := fun hm => h (List.mem_cons_of_mem c hm)
    simp [dropThroughComma, hc, ih hr]

/-- A text with no comma yields the empty payload. -/
theorem extractPayload_of_no_comma (t : String) (h : ',' ∉ t.toList) :
    extractPayload t = "" := by
  unfold extractPayload
  rw [splitOnComma_eq_struct, dropThroughComma_eq_none t.toList h]
  rfl

/-- A text starting with the image prefix is not the ping message. -/
theorem ne_ping_of_dataImage (t : String)
    (h : strStartsWith t "data:image" = true) : t ≠ "ping" := by
  intro he
  subst he
  exact absurd h (by decide)

/-- With the three configuration variables present, `process_image` returns
normally: the interpreted response to the request built from the values read
on this call. -/
theorem processImage_of_env (env : Env) (net : Net) (b64 k m v : String)
    (hk : env "ROBOFLOW_API_KEY" = some k)
    (hm : env "ROBOFLOW_MODEL_ID" = some m)
    (hv : env "ROBOFLOW_MODEL_VERSION" = some v) :
    processImage env net b64
      = Except.ok (interpretResponse (net clientNew (mkReq k m v b64))) := by
  unfold processImage
  rw [hk, hm, hv]

/-- Every failing provider call yields the empty detection list. -/
theorem results_nil_of_callFails (r : HttpResult) (h : callFails r = true) :
    (interpretResponse r).results = [] := by
  cases r with
  | err e => rfl
  | ok status jb tb =>
    simp only [callFails, Bool.or_eq_true, Bool.not_eq_true'] at h
    rcases h with h | h
    · simp [interpretResponse, h]
    · cases hd : decodeBody jb with
      | none =>
        by_cases hs : statusIsSuccess status = true <;>
          simp [interpretResponse, hs, hd]
      | some rr =>
        rw [hd] at h
        simp [Option.isNone] at h

/-- One loop iteration whose step sends `out` prepends `out` to the rest of
the session's output. -/
theorem session_cons_ok (env : Env) (net : Net) (m : WsMsg)
    (rest : List RecvEvent) (out outs : List String)
    (h1 : sessionStep env net m = Except.ok out)
    (h2 : session env net rest = Except.ok outs) :
    session env net (RecvEvent.msg m :: rest) = Except.ok (out ++ outs) := by
  simp [session, h1, h2]

/-- A loop iteration that sends nothing leaves the session's behaviour on
the remaining events unchanged: the loop just continues. -/
theorem session_cons_skip (env : Env) (net : Net) (m : WsMsg)
    (rest : List RecvEvent) (h : sessionStep env net m = Except.ok []) :
    session env net (RecvEvent.msg m :: rest) = session env net rest := by
  cases hr : session env net rest with
  | error e => simp [session, h, hr]
  | ok outs => simp [session, h, hr]

/-- The empty detection list serializes to the two-character array. -/
theorem serializeResults_nil : serializeResults [] = "[]" := rfl

/-! ## Claim C1 -/

/-- Claim C1, counterexample: for the inbound text
`"data:image/png;base64,AAA,BBB"` the payload bound on line 122 and passed
to the inference call is `"AAA"`, the segment between the first and second
comma, not `"AAA,BBB"`, everything after the first comma as the claim
states; accordingly the request body carries `image=AAA`. -/
theorem extractPayload_not_after_first_comma :
    extractPayload "data:image/png;base64,AAA,BBB" = "AAA"
    ∧ payloadSpecAfterFirstComma "data:image/png;base64,AAA,BBB" = "AAA,BBB"
    ∧ (mkReq "key" "model" "1"
        (extractPayload "data:image/png;base64,AAA,BBB")).body = "image=AAA"
    ∧ ("AAA" : String) ≠ "AAA,BBB" :=
  ⟨by decide, by decide, by decide, by decide⟩

/-- Claim C1, amended: for every inbound text the payload passed to the
inference call is the segment of the text strictly between the first comma
and the second comma (or the end of the text), and the empty string when no
comma is present. -/
theorem extractPayload_is_between_first_and_second_comma (t : String) :
    extractPayload t = payloadBetweenCommas t := by
  unfold extractPayload payloadBetweenCommas
  rw [splitOnComma_eq_struct]
  cases h : dropThroughComma t.toList with
  | none => rfl
  | some rest =>
    simp only [Option.elim]
    rw [splitOnComma_eq_struct rest]

/-! ## Claim C2 -/

/-- Claim C2, counterexample: with an environment holding none of the three
provider configuration values, startup still succeeds (`main` performs no
configuration check), and the first image request panics inside
`process_image` when it reads the missing key. -/
theorem missing_config_does_not_prevent_startup :
    mainStartup (fun _ => none) true = true
    ∧ processImage (fun _ => none) (fun _ _ => HttpResult.err "unreachable") ""
        = Except.error (envPanicMsg "ROBOFLOW_API_KEY") :=
  ⟨rfl, rfl⟩

/-- Claim C2, amended: the three provider configuration values are read from
the process environment anew on every inference call during request
handling; startup performs no configuration check, so a missing value does
not prevent the process from starting but makes the request-time call
panic. -/
theorem config_env_read_on_each_request (env : Env) (bindOk : Bool)
    (net : Net) (b64 : String) :
    mainStartup env bindOk = bindOk
    ∧ (env "ROBOFLOW_API_KEY" = none →
        processImage env net b64 = Except.error (envPanicMsg "ROBOFLOW_API_KEY"))
    ∧ (∀ k m v, env "ROBOFLOW_API_KEY" = some k →
        env "ROBOFLOW_MODEL_ID" = some m →
        env "ROBOFLOW_MODEL_VERSION" = some v →
        processImage env net b64
          = Except.ok (interpretResponse (net clientNew (mkReq k m v b64)))) := by
  refine ⟨rfl, ?_, ?_⟩
  · intro h
    unfold processImage
    rw [h]
  · intro k m v hk hm hv
    exact processImage_of_env env net b64 k m v hk hm hv

/-- Witness for the amended claim C2, at a concrete empty and a concrete
complete environment. -/
theorem config_env_read_on_each_request_witness :
    mainStartup (fun _ => none) true = true
    ∧ processImage (fun _ => none) (fun _ _ => HttpResult.err "down") "AAA"
        = Except.error (envPanicMsg "ROBOFLOW_API_KEY")
    ∧ processImage (mkEnv "key" "model" "1") (fun _ _ => HttpResult.err "down") "AAA"
        = Except.ok (interpretResponse (HttpResult.err "down")) :=
  ⟨(config_env_read_on_each_request (fun _ => none) true
      (fun _ _ => HttpResult.err "down") "AAA").1,
   (config_env_read_on_each_request (fun _ => none) true
      (fun _ _ => HttpResult.err "down") "AAA").2.1 rfl,
   (config_env_read_on_each_request (mkEnv "key" "model" "1") true
      (fun _ _ => HttpResult.err "down") "AAA").2.2 "key" "model" "1" rfl rfl rfl⟩

/-! ## Claim C3 -/

/-- Claim C3: with the configuration present, every image frame makes the
session send exactly one message; whenever the provider call fails, for any
reason the model can express, that message is the literal `"[]"`; and the
loop then continues with the remaining events, prepending that one reply to
the rest of the session's output. -/
theorem image_frame_gets_exactly_one_reply (k m v : String) (net : Net)
    (t : String) (rest : List RecvEvent)
    (h : strStartsWith t "data:image" = true) :
    sessionStep (mkEnv k m v) net (WsMsg.text t)
      = Except.ok [serializeResults
          (interpretResponse (net clientNew (mkReq k m v (extractPayload t)))).results]
    ∧ (callFails (net clientNew (mkReq k m v (extractPayload t))) = true →
        sessionStep (mkEnv k m v) net (WsMsg.text t) = Except.ok ["[]"])
    ∧ (∀ outs, session (mkEnv k m v) net rest = Except.ok outs →
        ∃ out, session (mkEnv k m v) net (RecvEvent.msg (WsMsg.text t) :: rest)
          = Except.ok (out :: outs)) := by
  have hp := ne_ping_of_dataImage t h
  have henv := processImage_of_env (mkEnv k m v) net (extractPayload t) k m v rfl rfl rfl
  have hstep : sessionStep (mkEnv k m v) net (WsMsg.text t)
      = Except.ok [serializeResults
          (interpretResponse (net clientNew (mkReq k m v (extractPayload t)))).results] := by
    simp [sessionStep, hp, h, henv]
  refine ⟨hstep, ?_, ?_⟩
  · intro hf
    rw [hstep, results_nil_of_callFails _ hf, serializeResults_nil]
  · intro outs houts
    exact ⟨_, session_cons_ok _ _ _ _ _ _ hstep houts⟩

/-- Witness for claim C3: a failing provider and the frame `"data:image"`
produce the single reply `"[]"`. -/
theorem image_frame_gets_exactly_one_reply_witness :
    sessionStep (mkEnv "key" "model" "1")
      (fun _ _ => HttpResult.err "connect error") (WsMsg.text "data:image")
      = Except.ok ["[]"] :=
  (image_frame_gets_exactly_one_reply "key" "model" "1"
    (fun _ _ => HttpResult.err "connect error") "data:image" [] (by decide)).2.1
    (by decide)

/-! ## Claim C4 -/

/-- Claim C4, counterexample: the inference call has an exit path other than
returning a detection list -- with the API key present but the model id
absent from the environment, `process_image` panics on the `unwrap` of
line 59 instead of returning. -/
theorem process_image_panics_on_missing_model_id :
    processImage (fun n => if n = "ROBOFLOW_API_KEY" then some "key" else none)
      (fun _ _ => HttpResult.err "unused") "payload"
      = Except.error (envPanicMsg "ROBOFLOW_MODEL_ID") := rfl

/-- Claim C4, amended: provided the three configuration variables are
present in the environment, the inference call always returns normally, and
each of the three failure modes -- transport error, non-success status, and
a body that does not decode against the schema -- yields the empty detection
list after logging one diagnostic line. -/
theorem process_image_total_given_config (env : Env) (net : Net)
    (b64 k m v : String)
    (hk : env "ROBOFLOW_API_KEY" = some k)
    (hm : env "ROBOFLOW_MODEL_ID" = some m)
    (hv : env "ROBOFLOW_MODEL_VERSION" = some v) :
    processImage env net b64
      = Except.ok (interpretResponse (net clientNew (mkReq k m v b64)))
    ∧ (∀ e, interpretResponse (HttpResult.err e)
        = ⟨["Failed to send request: " ++ e], []⟩)
    ∧ (∀ status jb tb, statusIsSuccess status = false →
        interpretResponse (HttpResult.ok status jb tb)
          = ⟨["Roboflow API error: " ++ tb.getD "Unknown error"], []⟩)
    ∧ (∀ status jb tb, statusIsSuccess status = true → decodeBody jb = none →
        interpretResponse (HttpResult.ok status jb tb)
          = ⟨["Failed to parse Roboflow response."], []⟩) := by
  refine ⟨processImage_of_env env net b64 k m v hk hm hv, fun e => rfl, ?_, ?_⟩
  · intro status jb tb hs
    simp [interpretResponse, hs]
  · intro status jb tb hs hd
    simp [interpretResponse, hs, hd]

/-- Witness for the amended claim C4, at a stub provider answering
HTTP 500. -/
theorem process_image_total_given_config_witness :
    processImage (mkEnv "key" "model" "1")
      (fun _ _ => HttpResult.ok 500 none (some "Internal Server Error")) "AAA"
      = Except.ok ⟨["Roboflow API error: Internal Server Error"], []⟩ := by
  have h := process_image_total_given_config (mkEnv "key" "model" "1")
    (fun _ _ => HttpResult.ok 500 none (some "Internal Server Error")) "AAA"
    "key" "model" "1" rfl rfl rfl
  rw [h.1]
  exact congrArg Except.ok
    (h.2.2.1 500 none (some "Internal Server Error") (by decide))

/-! ## Claim C5 -/

/-- Claim C5, counterexample: a success response whose prediction lacks the
bounding-box fields and the class id fails the schema decode, so the call
takes the decode-failure path and returns the empty list instead of the
detection -- the absence of those fields does cause a decode failure. -/
theorem prediction_missing_fields_fails_decode :
    parseRoboflowResponse predsMissingBoxFields = none
    ∧ processImage (mkEnv "key" "model" "1")
        (fun _ _ => HttpResult.ok 200 (some predsMissingBoxFields) (some "body")) ""
        = Except.ok ⟨["Failed to parse Roboflow response."], []⟩ :=
  ⟨by decide, rfl⟩

/-- Claim C5, amended: on HTTP success with a body that decodes against the
schema, each prediction is mapped to a detection keeping only its class and
confidence, the other parsed fields being dropped; but every schema field is
required by the parser, so a prediction missing the `x` bounding-box
coordinate fails the decode. -/
theorem success_keeps_only_class_and_confidence (env : Env) (net : Net)
    (b64 k m v : String)
    (hk : env "ROBOFLOW_API_KEY" = some k)
    (hm : env "ROBOFLOW_MODEL_ID" = some m)
    (hv : env "ROBOFLOW_MODEL_VERSION" = some v)
    (status : Nat) (jb : Option Json) (tb : Option String)
    (rr : RoboflowResponse)
    (hresp : net clientNew (mkReq k m v b64) = HttpResult.ok status jb tb)
    (hs : statusIsSuccess status = true) (hd : decodeBody jb = some rr) :
    processImage env net b64
      = Except.ok ⟨[], rr.predictions.map
          (fun p => (⟨p.«class», p.confidence⟩ : DetectionResult))⟩
    ∧ (∀ fs, jGet fs "x" = none → parsePrediction (Json.obj fs) = none) := by
  constructor
  · rw [processImage_of_env env net b64 k m v hk hm hv, hresp]
    simp [interpretResponse, hs, hd]
  · intro fs hx
    simp [parsePrediction, hx]

/-- Witness for the amended claim C5: the spec's full stub body maps to the
single detection keeping only class and confidence. -/
theorem success_keeps_only_class_and_confidence_witness :
    processImage (mkEnv "key" "model" "1")
      (fun _ _ => HttpResult.ok 200 (some fullStubBody) (some "")) ""
      = Except.ok ⟨[], [⟨"fish", "1.0"⟩]⟩ := by
  have h := success_keeps_only_class_and_confidence (mkEnv "key" "model" "1")
    (fun _ _ => HttpResult.ok 200 (some fullStubBody) (some "")) ""
    "key" "model" "1" rfl rfl rfl 200 (some fullStubBody) (some "")
    ⟨[⟨"0", "0", "1", "1", "1.0", "fish", 0⟩]⟩ rfl (by decide) (by decide)
  exact h.1

/-! ## Claim C6 -/

/-- Claim C6, counterexample: the inference HTTP call is made with the
default client configuration, which sets no request timeout at all -- there
is no configured timeout bounding the call. -/
theorem client_has_no_configured_timeout :
    clientNew.requestTimeoutMs = none
    ∧ ¬ ∃ ms, clientNew.requestTimeoutMs = some ms := by
  refine ⟨rfl, ?_⟩
  rintro ⟨ms, hms⟩
  simp [clientNew] at hms

/-- Claim C6, amended: no request timeout is configured on the HTTP client
used for the inference call, so the call is not time-bounded by the client;
an actual transport error from the send is what maps to the empty-result
failure outcome. -/
theorem no_timeout_transport_error_maps_empty :
    clientNew.requestTimeoutMs = none
    ∧ ∀ e, (interpretResponse (HttpResult.err e)).results = []
        ∧ callFails (HttpResult.err e) = true :=
  ⟨rfl, fun _ => ⟨rfl, rfl⟩⟩

/-! ## Claim C7 -/

/-- Claim C7: a received frame that does not decode as UTF-8 text gets no
reply, and the session continues with the remaining events exactly as if
the frame had not been received. -/
theorem undecodable_frame_no_reply_loop_continues (env : Env) (net : Net)
    (rest : List RecvEvent) :
    sessionStep env net WsMsg.undecodable = Except.ok []
    ∧ session env net (RecvEvent.msg WsMsg.undecodable :: rest)
        = session env net rest :=
  ⟨rfl, session_cons_skip env net WsMsg.undecodable rest rfl⟩

/-! ## Claim C8 -/

/-- Claim C8: serializing a detection list produces a JSON array of objects
with exactly the fields `class` (a JSON string) then `confidence` (a JSON
number) in that order, one object per detection in the given order; the
empty list serializes to `"[]"`, and the spec's single- and two-element
examples render as stated, in input order. -/
theorem serializeResults_json_shape :
    serializeResults [] = "[]"
    ∧ (∀ ds, serializeResults ds
        = "[" ++ String.intercalate ","
            (ds.map (fun d => "\x7b\"class\":" ++ ("\"" ++ jsonEscape d.«class» ++ "\"")
              ++ ",\"confidence\":" ++ d.confidence ++ "\x7d")) ++ "]")
    ∧ serializeResults [⟨"cat", "0.9"⟩]
        = "[\x7b\"class\":\"cat\",\"confidence\":0.9\x7d]"
    ∧ serializeResults [⟨"cat", "0.9"⟩, ⟨"dog", "0.5"⟩]
        = "[\x7b\"class\":\"cat\",\"confidence\":0.9\x7d,\x7b\"class\":\"dog\",\"confidence\":0.5\x7d]" :=
  ⟨rfl, fun _ => rfl, by decide, by decide⟩

/-! ## Claim C9 -/

/-- Claim C9: a received text that is neither exactly `"ping"` nor prefixed
with `"data:image"` gets no response at all, is not an error, and the
session continues with the remaining events unchanged. -/
theorem unrecognized_text_silently_ignored (env : Env) (net : Net)
    (t : String) (rest : List RecvEvent) (hp : t ≠ "ping")
    (hi : strStartsWith t "data:image" = false) :
    sessionStep env net (WsMsg.text t) = Except.ok []
    ∧ session env net (RecvEvent.msg (WsMsg.text t) :: rest)
        = session env net rest := by
  have hstep : sessionStep env net (WsMsg.text t) = Except.ok [] := by
    simp [sessionStep, hp, hi]
  exact ⟨hstep, session_cons_skip env net (WsMsg.text t) rest hstep⟩

/-- Witness for claim C9, at the text `"hello"`. -/
theorem unrecognized_text_silently_ignored_witness :
    sessionStep (fun _ => none) (fun _ _ => HttpResult.err "down")
      (WsMsg.text "hello") = Except.ok []
    ∧ session (fun _ => none) (fun _ _ => HttpResult.err "down")
        [RecvEvent.msg (WsMsg.text "hello")]
      = session (fun _ => none) (fun _ _ => HttpResult.err "down") [] :=
  unrecognized_text_silently_ignored (fun _ => none)
    (fun _ _ => HttpResult.err "down") "hello" [] (by decide) (by decide)

/-! ## Claim C10 -/

/-- Claim C10: a text starting with `"data:image"` that contains no comma is
not short-circuited: its payload is the empty string, the outbound request
body is exactly `"image="`, and the session replies with the serialization
of whatever the provider call produces for that request. -/
theorem empty_payload_still_posts_image_eq (k m v : String) (net : Net)
    (t : String) (h : strStartsWith t "data:image" = true)
    (hc : ',' ∉ t.toList) :
    extractPayload t = ""
    ∧ (mkReq k m v (extractPayload t)).body = "image="
    ∧ sessionStep (mkEnv k m v) net (WsMsg.text t)
        = Except.ok [serializeResults
            (interpretResponse (net clientNew (mkReq k m v ""))).results] := by
  have hpay := extractPayload_of_no_comma t hc
  have hp := ne_ping_of_dataImage t h
  have henv := processImage_of_env (mkEnv k m v) net "" k m v rfl rfl rfl
  refine ⟨hpay, by rw [hpay]; rfl, ?_⟩
  simp [sessionStep, hp, h, hpay, henv]

/-- Witness for claim C10: the bare text `"data:image"` still produces a
request with body `"image="` and a reply. -/
theorem empty_payload_still_posts_image_eq_witness :
    extractPayload "data:image" = ""
    ∧ (mkReq "key" "model" "1" (extractPayload "data:image")).body = "image="
    ∧ sessionStep (mkEnv "key" "model" "1")
        (fun _ _ => HttpResult.ok 200 none none) (WsMsg.text "data:image")
      = Except.ok ["[]"] := by
  have h := empty_payload_still_posts_image_eq "key" "model" "1"
    (fun _ _ => HttpResult.ok 200 none none) "data:image" (by decide) (by decide)
  exact ⟨h.1, h.2.1, h.2.2.trans rfl⟩
